import Mathlib

/-!
Shallow embedding of the player state machine of `src/engine/game_state.rs`
and the instance-buffer packing of `src/game_loop.rs` from the
rust-platformer repository.

Modelling conventions:
* `f32` values are modelled as rationals (`ℚ`); the source literals
  `0.1`, `-0.5`, `-9.8`, `1.5`, … appear as the exact rationals
  `1/10`, `-1/2`, `-49/5`, `3/2`, ….
* The `HashMap<String,(usize,usize)>` built once in `GameState::new` and
  never mutated afterwards is embedded as the fixed lookup function
  `actionsGet` (insertion keys are pairwise distinct, so lookup order is
  irrelevant).
* The `HashSet`-backed `InputHandler` is embedded as its membership
  function `VirtualKeyCode → Bool`.
* The unchecked indexing `self.actions[&self.current_action]` in
  `update_animation` panics when the key is absent; the embedding returns
  `Option GameState`, with `none` standing for that panic.
* `eprintln!` in `set_action` is modelled by returning the diagnostic
  message alongside the state: `set_action` yields
  `GameState × Option String`, the second component being the printed
  diagnostic (`none` when nothing is printed).
-/

namespace Platformer

/-- The keyboard keys queried by `GameState::update`
(`winit::event::VirtualKeyCode` restricted to the keys the game reads). -/
inductive VirtualKeyCode : Type
  | A
  | D
  | S
  | E
  | Space
  | LShift
deriving DecidableEq

/-- Input handler of `src/engine/input.rs`: a set of currently held keys,
embedded as its membership function. -/
def InputHandler : Type := VirtualKeyCode → Bool

/-- Membership query `InputHandler::is_key_pressed`. -/
def is_key_pressed (i : InputHandler) (key : VirtualKeyCode) : Bool := i key

/-- The player state of `src/engine/game_state.rs` (struct `GameState`,
minus the `actions` map, which is the fixed table `actionsGet` below). -/
structure GameState : Type where
  player_x : ℚ
  player_y : ℚ
  player_velocity_x : ℚ
  player_velocity_y : ℚ
  is_jumping : Bool
  is_crouching : Bool
  is_running : Bool
  is_kicking : Bool
  facing_right : Bool
  player_speed : ℚ
  gravity : ℚ
  jump_force : ℚ
  ground_y : ℚ
  sprite_index : ℕ
  frame_time : ℚ
  current_action : String

/-- The action table built in `GameState::new` (game_state.rs lines 38-46):
`idle ↦ (0,0)`, `walk ↦ (1,10)`, `kick ↦ (11,13)`, `hurt ↦ (14,16)`,
`run ↦ (17,23)`, `jump ↦ (6,8)`, `crouch_walk ↦ (19,23)`,
`crouch_idle ↦ (18,18)`; lookup of any other key fails. -/
def actionsGet (action : String) : Option (ℕ × ℕ) :=
  if action = "idle" then some (0, 0)
  else if action = "walk" then some (1, 10)
  else if action = "kick" then some (11, 13)
  else if action = "hurt" then some (14, 16)
  else if action = "run" then some (17, 23)
  else if action = "jump" then some (6, 8)
  else if action = "crouch_walk" then some (19, 23)
  else if action = "crouch_idle" then some (18, 18)
  else none

/-- Constructor `GameState::new` (game_state.rs lines 36-68). -/
def GameState.new : GameState where
  player_x := 0
  player_y := -1/2
  player_velocity_x := 0
  player_velocity_y := 0
  is_jumping := false
  is_crouching := false
  is_running := false
  is_kicking := false
  facing_right := true
  player_speed := 1
  gravity := -49/5
  jump_force := 5
  ground_y := -1/2
  sprite_index := 0
  frame_time := 0
  current_action := "idle"

/-- Action switch `GameState::set_action` (game_state.rs lines 141-152).  The second
component of the result is the diagnostic printed by `eprintln!` when the
requested action is not in the table (in that error case the state is
returned unchanged and execution continues). -/
def set_action (s : GameState) (action : String) : GameState × Option String :=
  if s.current_action ≠ action then
    match actionsGet action with
    | some (start_frame, _) =>
        ({ s with current_action := action
                  sprite_index := start_frame
                  frame_time := 0 }, none)
    | none => (s, some ("Action " ++ action ++ " not found in actions HashMap"))
  else
    (s, none)

/-- The state after `set_action`, ignoring the diagnostic (callers in the
source discard the `eprintln!` output). -/
def set_action1 (s : GameState) (action : String) : GameState :=
  (set_action s action).1

/-- Animation advance `GameState::update_animation` (game_state.rs lines 154-179).
`none` models the panic of the unchecked index
`self.actions[&self.current_action]` on a missing key. -/
def update_animation (s : GameState) (delta_time : ℚ) : Option GameState :=
  let animation_speed : ℚ := 1/10
  let s := { s with frame_time := s.frame_time + delta_time }
  if s.frame_time ≥ animation_speed then
    match actionsGet s.current_action with
    | none => none
    | some (start_frame, end_frame) =>
        let s :=
          if start_frame = end_frame then
            { s with sprite_index := start_frame }
          else
            let s := { s with sprite_index := s.sprite_index + 1 }
            if s.sprite_index > end_frame then
              if s.current_action = "kick" then
                set_action1 { s with is_kicking := false } "idle"
              else
                { s with sprite_index := start_frame }
            else s
        some { s with frame_time := 0 }
  else
    some s

/-- Line 72 of `GameState::update`: reset horizontal velocity. -/
def reset_velocity_x (s : GameState) : GameState :=
  { s with player_velocity_x := 0 }

/-- Line 75: running flag from the LShift key. -/
def read_running (s : GameState) (input : InputHandler) : GameState :=
  { s with is_running := is_key_pressed input .LShift }

/-- Lines 79-83: the A (left) key branch; also returns the updated local
`is_moving` flag. -/
def apply_key_a (s : GameState) (input : InputHandler) (is_moving : Bool) :
    GameState × Bool :=
  if is_key_pressed input .A then
    ({ s with player_velocity_x := s.player_velocity_x -
                (if s.is_running then s.player_speed * (3/2) else s.player_speed)
              facing_right := false }, true)
  else (s, is_moving)

/-- Lines 84-88: the D (right) key branch; also returns the updated local
`is_moving` flag. -/
def apply_key_d (s : GameState) (input : InputHandler) (is_moving : Bool) :
    GameState × Bool :=
  if is_key_pressed input .D then
    ({ s with player_velocity_x := s.player_velocity_x +
                (if s.is_running then s.player_speed * (3/2) else s.player_speed)
              facing_right := true }, true)
  else (s, is_moving)

/-- Line 91: crouching flag from the S key. -/
def read_crouching (s : GameState) (input : InputHandler) : GameState :=
  { s with is_crouching := is_key_pressed input .S }

/-- Line 94: kicking flag from the E key (re-read every update). -/
def read_kicking (s : GameState) (input : InputHandler) : GameState :=
  { s with is_kicking := is_key_pressed input .E }

/-- Lines 97-100: jump initiation from the Space key, gated on not already
jumping and not crouching. -/
def apply_jump (s : GameState) (input : InputHandler) : GameState :=
  if is_key_pressed input .Space && !s.is_jumping && !s.is_crouching then
    { s with player_velocity_y := s.jump_force
             is_jumping := true }
  else s

/-- Line 103: apply gravity to the vertical velocity. -/
def apply_gravity (s : GameState) (delta_time : ℚ) : GameState :=
  { s with player_velocity_y := s.player_velocity_y + s.gravity * delta_time }

/-- Line 106: integrate the horizontal position. -/
def integrate_x (s : GameState) (delta_time : ℚ) : GameState :=
  { s with player_x := s.player_x + s.player_velocity_x * delta_time }

/-- Line 107: integrate the vertical position. -/
def integrate_y (s : GameState) (delta_time : ℚ) : GameState :=
  { s with player_y := s.player_y + s.player_velocity_y * delta_time }

/-- Lines 110-114: ground collision — clamp `player_y` to `ground_y`, zero
the vertical velocity and clear `is_jumping` when at or below ground. -/
def ground_collision (s : GameState) : GameState :=
  if s.player_y ≤ s.ground_y then
    { s with player_y := s.ground_y
             player_velocity_y := 0
             is_jumping := false }
  else s

/-- Lines 70-114 of `GameState::update`: velocity/flag updates from input,
jump initiation, gravity, integration and ground collision, in source
order.  Besides the new state it returns the local `is_moving` flag
computed on lines 78-88 (set when the A or D key is held, independently
of the resulting velocity). -/
def update_physics (s : GameState) (input : InputHandler) (delta_time : ℚ) :
    GameState × Bool :=
  let s := reset_velocity_x s
  let s := read_running s input
  let is_moving := false
  let sm := apply_key_a s input is_moving
  let s := sm.1
  let is_moving := sm.2
  let sm := apply_key_d s input is_moving
  let s := sm.1
  let is_moving := sm.2
  let s := read_crouching s input
  let s := read_kicking s input
  let s := apply_jump s input
  let s := apply_gravity s delta_time
  let s := integrate_x s delta_time
  let s := integrate_y s delta_time
  let s := ground_collision s
  (s, is_moving)

/-- The action-selection chain of `GameState::update`
(game_state.rs lines 116-135), factored as the pure function of the five
flags it reads; each branch passes the written action name to
`set_action`. -/
def resolve_action (kicking jumping crouching moving running : Bool) : String :=
  if kicking then "kick"
  else if jumping then "jump"
  else if crouching then
    if moving then "crouch_walk" else "crouch_idle"
  else if moving then
    if running then "run" else "walk"
  else "idle"

/-- Per-frame step `GameState::update` (game_state.rs lines 70-139): physics and flag
updates, then the action-selection chain (via `resolve_action` and
`set_action`), then `update_animation`. -/
def GameState.update (s : GameState) (input : InputHandler) (delta_time : ℚ) :
    Option GameState :=
  let p := update_physics s input delta_time
  let s2 := set_action1 p.1
    (resolve_action p.1.is_kicking p.1.is_jumping p.1.is_crouching p.2 p.1.is_running)
  update_animation s2 delta_time

/-- Constants of `src/engine/constants.rs`. -/
def SPRITE_WIDTH : ℚ := 3/10

/-- Constant of `constants.rs`: height of the sprite. -/
def SPRITE_HEIGHT : ℚ := 3/10

/-- Constant of `constants.rs`: default ground level position. -/
def GROUND_LEVEL : ℚ := -7/10

/-- Constant of `constants.rs`: animation speed for frame transitions. -/
def ANIMATION_SPEED : ℚ := 1/10

/-- The input snapshot with no key held. -/
def noKeys : InputHandler := fun _ => false

/-- The input snapshot holding only the D (right) key. -/
def inputD : InputHandler := fun k =>
  match k with
  | .D => true
  | _ => false

/-- The input snapshot holding only the E (kick) key. -/
def inputE : InputHandler := fun k =>
  match k with
  | .E => true
  | _ => false

/-- The input snapshot holding the A and D keys simultaneously. -/
def inputAD : InputHandler := fun k =>
  match k with
  | .A => true
  | .D => true
  | _ => false

/-- A grounded state in the middle of the walk animation: the player has
just switched to "walk" (frame 1, `frame_time = 0`), standing on the
ground of `GameState.new`. -/
def walkState : GameState where
  player_x := 0
  player_y := -1/2
  player_velocity_x := 1
  player_velocity_y := 0
  is_jumping := false
  is_crouching := false
  is_running := false
  is_kicking := false
  facing_right := true
  player_speed := 1
  gravity := -49/5
  jump_force := 5
  ground_y := -1/2
  sprite_index := 1
  frame_time := 0
  current_action := "walk"

/-- A grounded state at the last frame of the kick clip (frame 13 of
`kick ↦ (11,13)`), with the kick flag set and `frame_time = 0`. -/
def kickEndState : GameState where
  player_x := 0
  player_y := -1/2
  player_velocity_x := 0
  player_velocity_y := 0
  is_jumping := false
  is_crouching := false
  is_running := false
  is_kicking := true
  facing_right := true
  player_speed := 1
  gravity := -49/5
  jump_force := 5
  ground_y := -1/2
  sprite_index := 13
  frame_time := 0
  current_action := "kick"

/-- Iterated frames of the game loop: `n` steps starting from `GameState.new`, each frame
holding the D (right) key with `delta_time = 0.05` (a 20 Hz input feed:
two frames per animation tick). -/
def iterD : ℕ → Option GameState
  | 0 => some GameState.new
  | n + 1 => (iterD n).bind (fun s => GameState.update s inputD (1/20))

/-- The animation-clip invariant: the sprite frame lies inside the
inclusive frame range `[start, end]` of the clip registered for the
current action. -/
def FrameInRange (s : GameState) : Prop :=
  ∃ st en, actionsGet s.current_action = some (st, en) ∧
    st ≤ s.sprite_index ∧ s.sprite_index ≤ en

/-- The safety invariant behind the unchecked indexing in
`update_animation`: the current action is a key of the actions table. -/
def Registered (s : GameState) : Prop :=
  (actionsGet s.current_action).isSome = true

/-- Instance record `InstanceData` of `src/engine/renderer/instance.rs`,
each `f32` field a rational: a 4x4 transform, `sprite_index`, explicit
padding, `sprite_size`, `uv_offset`, `uv_scale`. -/
structure InstanceData : Type where
  transform : Fin 4 → Fin 4 → ℚ
  sprite_index : ℚ
  padding1 : ℚ
  sprite_size : ℚ × ℚ
  uv_offset : ℚ × ℚ
  uv_scale : ℚ × ℚ

/-- Size of one `f32` word in bytes. -/
def bytesPerWord : ℕ := 4

/-- Byte size `std::mem::size_of::<InstanceData>()`: the record is
`repr(C)` with 16 transform words, `sprite_index`, `_padding1`, and two
words each for `sprite_size`, `uv_offset`, `uv_scale` — 24 words of 4
bytes, 96 bytes, with no interior padding. -/
def instanceSize : ℕ := bytesPerWord * 24

/-- Byte image of one record at `f32`-word granularity: the 24 words in
declaration order (transform row-major first). -/
def InstanceData.words (r : InstanceData) : List ℚ :=
  [r.transform 0 0, r.transform 0 1, r.transform 0 2, r.transform 0 3,
   r.transform 1 0, r.transform 1 1, r.transform 1 2, r.transform 1 3,
   r.transform 2 0, r.transform 2 1, r.transform 2 2, r.transform 2 3,
   r.transform 3 0, r.transform 3 1, r.transform 3 2, r.transform 3 3,
   r.sprite_index, r.padding1, r.sprite_size.1, r.sprite_size.2,
   r.uv_offset.1, r.uv_offset.2, r.uv_scale.1, r.uv_scale.2]

/-- Byte image `bytemuck::cast_slice(records)`: the concatenated images
of the records. -/
def castSlice (rs : List InstanceData) : List ℚ :=
  (rs.map InstanceData.words).flatten

/-- Write primitive `wgpu::Queue::write_buffer(buffer, offset, data)`:
overwrite the buffer starting at byte offset `offset` with `data`,
leaving the rest unchanged (the buffer is a list of `f32` words; offsets
are in bytes and in this program always word-aligned). -/
def write_buffer (buf : List ℚ) (offset : ℕ) (data : List ℚ) : List ℚ :=
  buf.take (offset / bytesPerWord) ++ data ++
    buf.drop (offset / bytesPerWord + data.length)

/-- Buffer packing `update_instance_buffers` of `src/game_loop.rs`
(lines 232-271): upload background instances at byte offset 0, tile
instances at the background byte size, player instances at the sum of
both, each batch skipped when empty. -/
def update_instance_buffers (buf : List ℚ)
    (background_instances tile_instances player_instances : List InstanceData) :
    List ℚ :=
  let background_instances_size := background_instances.length * instanceSize
  let tile_instances_size := tile_instances.length * instanceSize
  let buf := if background_instances.isEmpty then buf
    else write_buffer buf 0 (castSlice background_instances)
  let buf := if tile_instances.isEmpty then buf
    else write_buffer buf background_instances_size (castSlice tile_instances)
  let buf := if player_instances.isEmpty then buf
    else write_buffer buf (background_instances_size + tile_instances_size)
      (castSlice player_instances)
  buf

/-- Correct packed layout for batches `(bg, tiles, player)` in `buf`: the
occupied region is the concatenation of the three byte images in order,
the buffer size is unchanged, each batch reads back byte-identical from
its cumulative byte offset, and the occupied byte size is
`instanceSize * (N + M + P)`. -/
def packed_spec (buf : List ℚ) (bg tiles player : List InstanceData) : Prop :=
  let out := update_instance_buffers buf bg tiles player
  out.length = buf.length ∧
  out.take (24 * (bg.length + tiles.length + player.length)) =
    castSlice bg ++ castSlice tiles ++ castSlice player ∧
  out.take ((bg.length * instanceSize) / bytesPerWord) = castSlice bg ∧
  (out.drop ((bg.length * instanceSize) / bytesPerWord)).take
      ((tiles.length * instanceSize) / bytesPerWord) = castSlice tiles ∧
  (out.drop ((bg.length * instanceSize + tiles.length * instanceSize) / bytesPerWord)).take
      ((player.length * instanceSize) / bytesPerWord) = castSlice player ∧
  bytesPerWord * (24 * (bg.length + tiles.length + player.length)) =
    instanceSize * (bg.length + tiles.length + player.length)

/-- Sample instance record for concrete packing runs. -/
def sampleRecord (v : ℚ) : InstanceData where
  transform := fun i j => (i : ℚ) * 4 + (j : ℚ) + v
  sprite_index := v
  padding1 := 0
  sprite_size := (v, 1)
  uv_offset := (0, v)
  uv_scale := (1, 1)

theorem actionsGet_start_le_end {a : String} {st en : ℕ}
    (h : actionsGet a = some (st, en)) : st ≤ en := by
  unfold actionsGet at h
  split_ifs at h <;> simp_all [Prod.ext_iff] <;> omega

theorem resolve_action_isSome (k j c m r : Bool) :
    (actionsGet (resolve_action k j c m r)).isSome = true := by
  cases k <;> cases j <;> cases c <;> cases m <;> cases r <;> decide

theorem set_action1_eq_self {s : GameState} {a : String}
    (h : s.current_action = a) : set_action1 s a = s := by
  simp [set_action1, set_action, h]

theorem set_action1_of_ne_some {s : GameState} {a : String} {st en : ℕ}
    (hne : s.current_action ≠ a) (hget : actionsGet a = some (st, en)) :
    set_action1 s a =
      { s with current_action := a, sprite_index := st, frame_time := 0 } := by
  simp [set_action1, set_action, hne, hget]

theorem set_action1_of_none {s : GameState} {a : String}
    (hget : actionsGet a = none) : set_action1 s a = s := by
  by_cases h : s.current_action = a
  · simp [set_action1, set_action, h]
  · simp [set_action1, set_action, h, hget]

theorem set_action1_current_of_isSome {s : GameState} {a : String}
    (h : (actionsGet a).isSome = true) :
    (set_action1 s a).current_action = a := by
  by_cases hc : s.current_action = a
  · rw [set_action1_eq_self hc]; exact hc
  · obtain ⟨⟨st, en⟩, hget⟩ := Option.isSome_iff_exists.mp h
    rw [set_action1_of_ne_some hc hget]

theorem set_action1_phys (s : GameState) (a : String) :
    (set_action1 s a).player_x = s.player_x ∧
    (set_action1 s a).player_y = s.player_y ∧
    (set_action1 s a).player_velocity_x = s.player_velocity_x ∧
    (set_action1 s a).player_velocity_y = s.player_velocity_y ∧
    (set_action1 s a).is_jumping = s.is_jumping ∧
    (set_action1 s a).is_crouching = s.is_crouching ∧
    (set_action1 s a).is_running = s.is_running ∧
    (set_action1 s a).is_kicking = s.is_kicking ∧
    (set_action1 s a).facing_right = s.facing_right ∧
    (set_action1 s a).ground_y = s.ground_y := by
  by_cases hc : s.current_action = a
  · rw [set_action1_eq_self hc]; simp
  · cases hget : actionsGet a with
    | none => rw [set_action1_of_none hget]; simp
    | some p =>
        obtain ⟨st, en⟩ := p
        rw [set_action1_of_ne_some hc hget]
        simp

theorem set_action1_frameInRange {s : GameState} (a : String)
    (h : FrameInRange s) : FrameInRange (set_action1 s a) := by
  by_cases hc : s.current_action = a
  · rwa [set_action1_eq_self hc]
  · cases hget : actionsGet a with
    | none => rwa [set_action1_of_none hget]
    | some p =>
        obtain ⟨st, en⟩ := p
        rw [set_action1_of_ne_some hc hget]
        exact ⟨st, en, hget, le_refl st, actionsGet_start_le_end hget⟩

theorem set_action1_registered {s : GameState} (a : String)
    (h : Registered s) : Registered (set_action1 s a) := by
  by_cases hc : s.current_action = a
  · rwa [set_action1_eq_self hc]
  · cases hget : actionsGet a with
    | none => rwa [set_action1_of_none hget]
    | some p =>
        obtain ⟨st, en⟩ := p
        rw [set_action1_of_ne_some hc hget]
        unfold Registered
        simp [hget]

theorem set_action1_registered_target {s : GameState} {a : String}
    (h : (actionsGet a).isSome = true) : Registered (set_action1 s a) := by
  unfold Registered
  rw [set_action1_current_of_isSome h]
  exact h

theorem update_animation_phys {s : GameState} {dt : ℚ} {t : GameState}
    (h : update_animation s dt = some t) :
    t.player_x = s.player_x ∧
    t.player_y = s.player_y ∧
    t.player_velocity_x = s.player_velocity_x ∧
    t.player_velocity_y = s.player_velocity_y ∧
    t.is_jumping = s.is_jumping ∧
    t.is_crouching = s.is_crouching ∧
    t.is_running = s.is_running ∧
    t.facing_right = s.facing_right ∧
    t.ground_y = s.ground_y := by
  unfold update_animation at h
  dsimp only at h
  split at h
  · cases hget : actionsGet s.current_action with
    | none => rw [hget] at h; exact absurd h (by simp)
    | some p =>
        obtain ⟨st, en⟩ := p
        rw [hget] at h
        dsimp only at h
        rw [Option.some.injEq] at h
        subst h
        split_ifs with h1 h2 h3 <;> simp_all [set_action1, set_action, actionsGet]
  · rw [Option.some.injEq] at h
    subst h
    simp

theorem update_animation_current {s : GameState} {dt : ℚ} {t : GameState}
    (h : update_animation s dt = some t) (hk : s.current_action ≠ "kick") :
    t.current_action = s.current_action := by
  unfold update_animation at h
  dsimp only at h
  split at h
  · cases hget : actionsGet s.current_action with
    | none => rw [hget] at h; exact absurd h (by simp)
    | some p =>
        obtain ⟨st, en⟩ := p
        rw [hget] at h
        dsimp only at h
        rw [Option.some.injEq] at h
        subst h
        split_ifs <;> simp_all
  · rw [Option.some.injEq] at h
    subst h
    simp

theorem update_animation_frameInRange {s : GameState} {dt : ℚ} {t : GameState}
    (hwf : FrameInRange s) (h : update_animation s dt = some t) :
    FrameInRange t := by
  obtain ⟨st, en, hget, hle1, hle2⟩ := hwf
  unfold update_animation at h
  dsimp only at h
  split at h
  · rw [hget] at h
    dsimp only at h
    rw [Option.some.injEq] at h
    subst h
    split_ifs with h1 h2 h3
    · exact ⟨st, en, hget, le_refl st, le_trans hle1 hle2⟩
    · refine ⟨0, 0, ?_, ?_, ?_⟩ <;>
        simp [set_action1, set_action, actionsGet, h3]
    · exact ⟨st, en, hget, le_refl st, le_trans hle1 hle2⟩
    · exact ⟨st, en, hget, Nat.le_succ_of_le hle1, Nat.le_of_not_lt h2⟩
  · rw [Option.some.injEq] at h
    subst h
    exact ⟨st, en, hget, hle1, hle2⟩

theorem update_animation_total (s : GameState) (dt : ℚ) (h : Registered s) :
    ∃ t, update_animation s dt = some t ∧ Registered t := by
  obtain ⟨⟨st, en⟩, hget⟩ := Option.isSome_iff_exists.mp h
  unfold update_animation
  dsimp only
  by_cases hc : s.frame_time + dt ≥ (1/10 : ℚ)
  · rw [if_pos hc, hget]
    dsimp only
    refine ⟨_, rfl, ?_⟩
    split_ifs with h1 h2 h3
    · simpa [Registered] using h
    · simp [Registered, actionsGet,
        set_action1_current_of_isSome (show (actionsGet "idle").isSome = true from by decide)]
    · simpa [Registered] using h
    · simpa [Registered] using h
  · rw [if_neg hc]
    exact ⟨_, rfl, by simpa [Registered] using h⟩

theorem update_animation_kick_end {s : GameState} {dt : ℚ}
    (hc : s.current_action = "kick") (hs : s.sprite_index = 13)
    (hdt : s.frame_time + dt ≥ 1/10) :
    ∃ t, update_animation s dt = some t ∧ t.current_action = "idle" ∧
      t.sprite_index = 0 ∧ t.is_kicking = false ∧ t.frame_time = 0 := by
  unfold update_animation
  dsimp only
  rw [if_pos hdt, hc, show actionsGet "kick" = some (11, 13) from by decide]
  dsimp only
  refine ⟨_, rfl, ?_, ?_, ?_, ?_⟩ <;>
    simp [set_action1, set_action, actionsGet, hc, hs]

theorem update_physics_proj (s : GameState) (input : InputHandler) (dt : ℚ) :
    (update_physics s input dt).1.current_action = s.current_action ∧
    (update_physics s input dt).1.sprite_index = s.sprite_index ∧
    (update_physics s input dt).1.frame_time = s.frame_time ∧
    (update_physics s input dt).1.ground_y = s.ground_y := by
  unfold update_physics reset_velocity_x read_running apply_key_a apply_key_d read_crouching read_kicking apply_jump apply_gravity integrate_x integrate_y ground_collision
  dsimp only
  split_ifs <;> simp

theorem update_physics_ground (s : GameState) (input : InputHandler) (dt : ℚ) :
    ((update_physics s input dt).1.player_y = s.ground_y ∧
      (update_physics s input dt).1.player_velocity_y = 0 ∧
      (update_physics s input dt).1.is_jumping = false) ∨
    s.ground_y < (update_physics s input dt).1.player_y := by
  unfold update_physics reset_velocity_x read_running apply_key_a apply_key_d read_crouching read_kicking apply_jump apply_gravity integrate_x integrate_y ground_collision
  dsimp only
  split_ifs <;> simp_all [not_le]

/-- C1: after `update(input, dt)` with `dt ≥ 0` and any combination of held
keys, from any state satisfying the frame-range invariant, the sprite frame
again lies within the inclusive range `[clip.start, clip.end]` of the clip
registered for the current action. -/
theorem C1_sprite_frame_in_clip_range (s : GameState) (input : InputHandler)
    (dt : ℚ) (t : GameState) (_hdt : 0 ≤ dt) (hwf : FrameInRange s)
    (h : GameState.update s input dt = some t) : FrameInRange t := by
  unfold GameState.update at h
  dsimp only at h
  refine update_animation_frameInRange (set_action1_frameInRange _ ?_) h
  obtain ⟨st, en, hget, hle1, hle2⟩ := hwf
  obtain ⟨hc, hs, -, -⟩ := update_physics_proj s input dt
  exact ⟨st, en, by rw [hc]; exact hget, by rw [hs]; exact hle1,
    by rw [hs]; exact hle2⟩

/-- Witness for C1: the initial state satisfies the invariant, dt = 1 is
nonnegative, `update` from it is defined, and the theorem yields the
invariant after the update. -/
theorem C1_witness :
    (0 : ℚ) ≤ 1 ∧ FrameInRange GameState.new ∧
    GameState.update GameState.new noKeys 1 = some GameState.new ∧
    FrameInRange GameState.new :=
  ⟨by norm_num, ⟨0, 0, by decide, le_refl 0, le_refl 0⟩,
    by with_unfolding_all rfl,
    C1_sprite_frame_in_clip_range GameState.new noKeys 1 GameState.new
      (by norm_num) ⟨0, 0, by decide, le_refl 0, le_refl 0⟩
      (by with_unfolding_all rfl)⟩

/-- C10: the initial action "idle" is registered, and for every state,
input and dt, `update` returns a defined result (the unchecked map
indexing in `update_animation` cannot panic, because `set_action` only
ever installs registered names and the resolver only produces registered
names) whose current action is again registered. -/
theorem C10_current_action_always_registered :
    Registered GameState.new ∧
    (∀ (s : GameState) (input : InputHandler) (dt : ℚ),
      ∃ t, GameState.update s input dt = some t ∧ Registered t) := by
  constructor
  · unfold Registered
    decide
  · intro s input dt
    unfold GameState.update
    dsimp only
    exact update_animation_total _ _
      (set_action1_registered_target (resolve_action_isSome _ _ _ _ _))

/-- C3: the action resolver is a total function of the five flags with
first-match priority kick > jump > crouch (walk/idle by moving) > move
(run/walk by running) > idle; in particular kicking together with jumping
resolves to "kick", and every output is one of the seven registered
action names. -/
theorem C3_resolver_priority :
    (∀ j c m r, resolve_action true j c m r = "kick") ∧
    (∀ c m r, resolve_action false true c m r = "jump") ∧
    (∀ m r, resolve_action false false true m r =
      if m then "crouch_walk" else "crouch_idle") ∧
    (∀ r, resolve_action false false false true r =
      if r then "run" else "walk") ∧
    (∀ r, resolve_action false false false false r = "idle") ∧
    (∀ k j c m r, resolve_action k j c m r = "kick" ∨
      resolve_action k j c m r = "jump" ∨
      resolve_action k j c m r = "crouch_walk" ∨
      resolve_action k j c m r = "crouch_idle" ∨
      resolve_action k j c m r = "run" ∨
      resolve_action k j c m r = "walk" ∨
      resolve_action k j c m r = "idle") := by
  decide

/-- C9: switching to the already-current action is a no-op (in particular
`frame_time` is not reset), `set_action` is idempotent, a switch to a
different registered action resets the frame to the new clip start and
`frame_time` to 0, and the resolver is deterministic on identical flags. -/
theorem C9_set_action_idempotence :
    (∀ s : GameState, set_action1 s s.current_action = s) ∧
    (∀ (s : GameState) (a : String),
      set_action1 (set_action1 s a) a = set_action1 s a) ∧
    (∀ (s : GameState) (a : String) (st en : ℕ), s.current_action ≠ a →
      actionsGet a = some (st, en) →
      set_action1 s a =
        { s with current_action := a, sprite_index := st, frame_time := 0 }) ∧
    (∀ (k j c m r : Bool) (a b : String),
      a = resolve_action k j c m r → b = resolve_action k j c m r → a = b) := by
  refine ⟨fun s => set_action1_eq_self rfl, ?_, ?_, ?_⟩
  · intro s a
    by_cases hc : s.current_action = a
    · rw [set_action1_eq_self hc, set_action1_eq_self hc]
    · cases hget : actionsGet a with
      | none => rw [set_action1_of_none hget, set_action1_of_none hget]
      | some p =>
          obtain ⟨st, en⟩ := p
          rw [set_action1_of_ne_some hc hget]
          exact set_action1_eq_self rfl
  · intro s a st en hne hget
    exact set_action1_of_ne_some hne hget
  · intro k j c m r a b h1 h2
    rw [h1, h2]

/-- Witness for C9: switching the initial state to "walk" (a different,
registered action) resets the frame to walk's start frame 1 and
`frame_time` to 0. -/
theorem C9_witness :
    GameState.new.current_action ≠ "walk" ∧ actionsGet "walk" = some (1, 10) ∧
    set_action1 GameState.new "walk" =
      { GameState.new with current_action := "walk", sprite_index := 1, frame_time := 0 } :=
  ⟨by decide, by decide,
    C9_set_action_idempotence.2.2.1 GameState.new "walk" 1 10 (by decide)
      (by decide)⟩

/-- C8 counterexample: requesting the unregistered action name "fly" from
the initial state does NOT abort the session: `set_action` prints a
diagnostic to stderr and returns the state unchanged, so the update simply
continues with the previous action — refuting the claim that this is
fatal. -/
theorem C8_counterexample :
    actionsGet "fly" = none ∧
    (set_action GameState.new "fly").1 = GameState.new ∧
    (set_action GameState.new "fly").2 =
      some "Action fly not found in actions HashMap" := by
  exact ⟨by decide, by with_unfolding_all rfl, by with_unfolding_all rfl⟩

/-- C8 amended: an action name missing from the clip table is reported via
a stderr diagnostic but is not fatal: `set_action` leaves the state (and
hence the current action, frame and frame accumulator) unchanged, and the
update continues. -/
theorem C8_unregistered_action_warns_and_continues (s : GameState) (a : String)
    (hget : actionsGet a = none) :
    (set_action s a).1 = s ∧
    (s.current_action ≠ a → (set_action s a).2 =
      some ("Action " ++ a ++ " not found in actions HashMap")) := by
  constructor
  · exact set_action1_of_none hget
  · intro hne
    simp [set_action, hne, hget]

/-- Witness for C8 amended at the initial state and the name "fly". -/
theorem C8_witness :
    actionsGet "fly" = none ∧
    (set_action GameState.new "fly").1 = GameState.new ∧
    (GameState.new.current_action ≠ "fly" → (set_action GameState.new "fly").2 =
      some ("Action " ++ "fly" ++ " not found in actions HashMap")) :=
  ⟨by decide,
    (C8_unregistered_action_warns_and_continues GameState.new "fly" (by decide)).1,
    (C8_unregistered_action_warns_and_continues GameState.new "fly" (by decide)).2⟩

/-- C2 counterexample: from a walk state with `frame_time = 0`, a single
update whose `dt = 0.3` spans k = 3 animation ticks advances the looping
walk clip by only ONE frame (from frame 1 to frame 2, not to 1 + 3 = 4),
and resets `frame_time` to 0, discarding the remainder: the advance step
is an `if`, not a `while`, so there is no per-call catch-up. -/
theorem C2_counterexample :
    (GameState.update walkState inputD (3/10)).map
      (fun u => (u.current_action, u.sprite_index, u.frame_time)) =
      some ("walk", 2, 0) ∧ (2 : ℕ) ≠ 1 + 3 :=
  ⟨by with_unfolding_all decide, by decide⟩

/-- C2 amended: the advance step tests `frame_elapsed ≥ 0.1` once per
update call (an `if`, not a `while`) and resets `frame_elapsed` to 0 when
it fires, so from a walk state with `frame_time = 0` EVERY `dt ≥ 0.1` —
however many ticks it spans — advances the clip by exactly one frame; the
1.05 s hold-right scenario holds only when dt is delivered in sub-tick
steps: 21 frames of `dt = 0.05` from the initial idle state yield action
"walk" with frame 1 ∈ [1, 10] (the claimed `1 + floor((1.05 - ε)/0.1) mod
10`), never frame 0. -/
theorem C2_if_advance_one_frame :
    (∀ dt : ℚ, 1/10 ≤ dt →
      (GameState.update walkState inputD dt).map
        (fun u => (u.current_action, u.sprite_index, u.frame_time)) =
        some ("walk", 2, 0)) ∧
    (iterD 21).map (fun u => (u.current_action, u.sprite_index)) =
      some ("walk", 1) ∧
    1 ≤ 1 ∧ 1 ≤ 10 ∧ (1 : ℕ) ≠ 0 := by
  refine ⟨?_, by with_unfolding_all decide, by decide, by decide, by decide⟩
  intro dt hdt
  unfold GameState.update update_physics reset_velocity_x read_running apply_key_a apply_key_d read_crouching read_kicking apply_jump apply_gravity integrate_x integrate_y ground_collision
  simp only [is_key_pressed, inputD, walkState]
  norm_num
  rw [if_pos (show (0:ℚ) ≤ 49 / 5 * dt * dt by positivity)]
  simp only [resolve_action]
  norm_num [set_action1, set_action]
  unfold update_animation
  norm_num [actionsGet]
  simp [hdt]
  rw [if_pos (show (10:ℚ)⁻¹ ≤ dt by linarith)]
  exact ⟨_, rfl, rfl, rfl, rfl⟩

/-- Witness for C2 amended at `dt = 0.2` (two ticks, one frame advance). -/
theorem C2_witness :
    (1:ℚ)/10 ≤ 1/5 ∧
    (GameState.update walkState inputD (1/5)).map
      (fun u => (u.current_action, u.sprite_index, u.frame_time)) =
      some ("walk", 2, 0) :=
  ⟨by norm_num, C2_if_advance_one_frame.1 (1/5) (by norm_num)⟩

/-- C4 counterexample: with no keys held and `dt = 1`, integration from the
initial state puts the sprite bottom edge (y − SPRITE_HEIGHT/2) far below
GROUND_LEVEL = −0.7, yet after the update the bottom edge sits at −0.65,
NOT exactly on GROUND_LEVEL: the code clamps `player_y` itself to
`ground_y = −0.5` instead of clamping the bottom edge to GROUND_LEVEL. -/
theorem C4_counterexample :
    (GameState.new.player_y +
        (GameState.new.player_velocity_y + GameState.new.gravity * 1) * 1)
      - SPRITE_HEIGHT / 2 ≤ GROUND_LEVEL ∧
    (GameState.update GameState.new noKeys 1).map
      (fun u => u.player_y - SPRITE_HEIGHT / 2) = some (-13/20) ∧
    (-13/20 : ℚ) ≠ GROUND_LEVEL := by
  refine ⟨?_, ?_, ?_⟩ <;> with_unfolding_all decide

/-- C4 amended: after every update `player_y ≥ ground_y = −0.5`, hence the
bottom edge `player_y − SPRITE_HEIGHT/2 ≥ −0.65` stays strictly above
GROUND_LEVEL = −0.7 (so it is never strictly below ground level); the
collision test compares `player_y` itself against `ground_y`: whenever
integration leaves `player_y ≤ −0.5` the update ends with `player_y`
clamped to exactly −0.5, vertical velocity zeroed and `is_jumping`
cleared, otherwise `player_y` ends strictly above −0.5. -/
theorem C4_ground_clamp (s : GameState) (input : InputHandler) (dt : ℚ)
    (t : GameState) (hg : s.ground_y = -1/2)
    (h : GameState.update s input dt = some t) :
    -1/2 ≤ t.player_y ∧
    GROUND_LEVEL < t.player_y - SPRITE_HEIGHT / 2 ∧
    ((t.player_y = -1/2 ∧ t.player_velocity_y = 0 ∧ t.is_jumping = false) ∨
      -1/2 < t.player_y) := by
  unfold GameState.update at h
  dsimp only at h
  obtain ⟨-, e2, -, e4, e5, -, -, -, -⟩ := update_animation_phys h
  obtain ⟨-, f2, -, f4, f5, -, -, -, -, -⟩ :=
    set_action1_phys (update_physics s input dt).1
      (resolve_action (update_physics s input dt).1.is_kicking
        (update_physics s input dt).1.is_jumping
        (update_physics s input dt).1.is_crouching
        (update_physics s input dt).2
        (update_physics s input dt).1.is_running)
  have hy : t.player_y = (update_physics s input dt).1.player_y := by
    rw [e2, f2]
  have hvy : t.player_velocity_y = (update_physics s input dt).1.player_velocity_y := by
    rw [e4, f4]
  have hjp : t.is_jumping = (update_physics s input dt).1.is_jumping := by
    rw [e5, f5]
  rcases update_physics_ground s input dt with ⟨g1, g2, g3⟩ | gup
  · have hy' : t.player_y = -1/2 := by rw [hy, g1, hg]
    refine ⟨le_of_eq hy'.symm, ?_, Or.inl ⟨hy', by rw [hvy, g2], by rw [hjp, g3]⟩⟩
    rw [hy']
    norm_num [GROUND_LEVEL, SPRITE_HEIGHT]
  · have hy' : -1/2 < t.player_y := by rw [hy]; rw [hg] at gup; exact gup
    refine ⟨le_of_lt hy', ?_, Or.inr hy'⟩
    have : GROUND_LEVEL < -1/2 - SPRITE_HEIGHT / 2 := by
      norm_num [GROUND_LEVEL, SPRITE_HEIGHT]
    linarith

/-- Witness for C4 amended: one update with no keys and `dt = 1` from the
initial state (which triggers the clamp). -/
theorem C4_witness :
    GameState.new.ground_y = -1/2 ∧
    ((-1/2 : ℚ) ≤ GameState.new.player_y ∧
      GROUND_LEVEL < GameState.new.player_y - SPRITE_HEIGHT / 2 ∧
      ((GameState.new.player_y = -1/2 ∧ GameState.new.player_velocity_y = 0 ∧
          GameState.new.is_jumping = false) ∨
        (-1/2 : ℚ) < GameState.new.player_y)) :=
  ⟨rfl, C4_ground_clamp GameState.new noKeys 1 GameState.new rfl
    (by with_unfolding_all rfl)⟩

/-- C5 counterexample: at the end of the kick clip (frame 13) with the E
key still held, one update completes the one-shot (action "idle", frame 0,
`is_kicking` cleared), but the NEXT update re-reads `is_kicking` from the
still-held key and resolves to "kick" again — refuting "the next frame's
resolved action is idle regardless of whether the kick key is still
held". -/
theorem C5_counterexample :
    (GameState.update kickEndState inputE (1/10)).map
      (fun u => (u.current_action, u.sprite_index, u.is_kicking)) =
      some ("idle", 0, false) ∧
    ((GameState.update kickEndState inputE (1/10)).bind
      (fun u => GameState.update u inputE (1/10))).map
      (fun u => u.current_action) = some "kick" ∧
    "kick" ≠ "idle" := by
  refine ⟨?_, ?_, by decide⟩ <;> with_unfolding_all decide

/-- C5 amended: when the kick clip passes its end frame during an
animation advance, `is_kicking` is cleared and the action transitions to
"idle" with the frame reset to idle's start (the clip does not loop);
but `is_kicking` is re-read from the input every update, so the next
frame's resolved action is "idle" only when the kick key has been
released — with the key still held it resolves to "kick" again. -/
theorem C5_kick_one_shot :
    (∀ (s : GameState) (dt : ℚ), s.current_action = "kick" →
      s.sprite_index = 13 → s.frame_time + dt ≥ 1/10 →
      ∃ t, update_animation s dt = some t ∧ t.current_action = "idle" ∧
        t.sprite_index = 0 ∧ t.is_kicking = false ∧ t.frame_time = 0) ∧
    ((GameState.update kickEndState inputE (1/10)).bind
      (fun u => GameState.update u noKeys (1/10))).map
      (fun u => u.current_action) = some "idle" ∧
    ((GameState.update kickEndState inputE (1/10)).bind
      (fun u => GameState.update u inputE (1/10))).map
      (fun u => u.current_action) = some "kick" := by
  refine ⟨?_, ?_, ?_⟩
  · intro s dt h1 h2 h3
    exact update_animation_kick_end h1 h2 h3
  · with_unfolding_all decide
  · with_unfolding_all decide

/-- Witness for C5 amended at the kick-end state with `dt = 0.1`. -/
theorem C5_witness :
    kickEndState.current_action = "kick" ∧ kickEndState.sprite_index = 13 ∧
    kickEndState.frame_time + 1/10 ≥ 1/10 ∧
    (∃ t, update_animation kickEndState (1/10) = some t ∧
      t.current_action = "idle" ∧ t.sprite_index = 0 ∧ t.is_kicking = false ∧
      t.frame_time = 0) :=
  ⟨rfl, rfl, by norm_num [kickEndState],
    C5_kick_one_shot.1 kickEndState (1/10) rfl rfl (by norm_num [kickEndState])⟩

/-- C6 counterexample: holding A and D together from the initial state
resolves to "walk", not "idle": the horizontal velocity cancels to exactly
0 and `facing_right` ends true, but the `is_moving` flag handed to the
resolver is key-based (set by either held key), not velocity-based. -/
theorem C6_counterexample :
    (GameState.update GameState.new inputAD (1/10)).map
      (fun u => (u.current_action, u.player_velocity_x, u.facing_right)) =
      some ("walk", 0, true) ∧ "walk" ≠ "idle" := by
  refine ⟨?_, by decide⟩
  with_unfolding_all decide

/-- C6 amended: with both direction keys held (and no other action keys),
the velocity contributions cancel to exactly zero and `facing_right` ends
true (the D branch is evaluated after the A branch), but the `is_moving`
flag the resolver receives is key-based and therefore true, so the
resolved action is "walk", not "idle". -/
theorem C6_both_direction_keys (s : GameState) (input : InputHandler)
    (dt : ℚ) (t : GameState)
    (hA : input VirtualKeyCode.A = true) (hD : input VirtualKeyCode.D = true)
    (hSh : input VirtualKeyCode.LShift = false)
    (hS : input VirtualKeyCode.S = false) (hE : input VirtualKeyCode.E = false)
    (hSp : input VirtualKeyCode.Space = false) (hj : s.is_jumping = false)
    (h : GameState.update s input dt = some t) :
    t.player_velocity_x = 0 ∧ t.facing_right = true ∧
    (update_physics s input dt).2 = true ∧ t.current_action = "walk" := by
  have hp : (update_physics s input dt).1.player_velocity_x = 0 ∧
      (update_physics s input dt).1.facing_right = true ∧
      (update_physics s input dt).1.is_kicking = false ∧
      (update_physics s input dt).1.is_jumping = false ∧
      (update_physics s input dt).1.is_crouching = false ∧
      (update_physics s input dt).1.is_running = false ∧
      (update_physics s input dt).2 = true := by
    unfold update_physics reset_velocity_x read_running apply_key_a apply_key_d read_crouching read_kicking apply_jump apply_gravity integrate_x integrate_y ground_collision
    simp only [is_key_pressed, hA, hD, hSh, hS, hE, hSp]
    norm_num [hj]
    split_ifs <;> norm_num
  obtain ⟨hvx, hfr, hkk, hjp, hcr, hrn, hmv⟩ := hp
  unfold GameState.update at h
  dsimp only at h
  rw [hkk, hjp, hcr, hrn, hmv] at h
  have hres : resolve_action false false false true false = "walk" := by decide
  rw [hres] at h
  have hcur : (set_action1 (update_physics s input dt).1 "walk").current_action =
      "walk" := set_action1_current_of_isSome (by decide)
  obtain ⟨-, -, e3, -, -, -, -, e8, -⟩ := update_animation_phys h
  obtain ⟨-, -, f3, -, -, -, -, -, f9, -⟩ :=
    set_action1_phys (update_physics s input dt).1 "walk"
  refine ⟨by rw [e3, f3, hvx], by rw [e8, f9, hfr], hmv, ?_⟩
  have := update_animation_current h (by rw [hcur]; decide)
  rw [this, hcur]

/-- Witness for C6 amended: the initial state with A and D held and
`dt = 0.1`. -/
theorem C6_witness :
    inputAD VirtualKeyCode.A = true ∧ inputAD VirtualKeyCode.D = true ∧
    GameState.new.is_jumping = false ∧
    (GameState.update GameState.new inputAD (1/10)).map
      (fun u => (u.player_velocity_x, u.facing_right, u.current_action)) =
      some (0, true, "walk") ∧
    (update_physics GameState.new inputAD (1/10)).2 = true := by
  refine ⟨rfl, rfl, rfl, ?_⟩
  cases hX : GameState.update GameState.new inputAD (1/10) with
  | none =>
      have hs : (GameState.update GameState.new inputAD (1/10)).isSome = true := by
        with_unfolding_all decide
      rw [hX] at hs
      exact absurd hs (by decide)
  | some x =>
      obtain ⟨h1, h2, h3, h4⟩ := C6_both_direction_keys GameState.new inputAD
        (1/10) x rfl rfl rfl rfl rfl rfl rfl hX
      refine ⟨?_, h3⟩
      simp [h1, h2, h4]

theorem words_length (r : InstanceData) : r.words.length = 24 := rfl

theorem castSlice_length (rs : List InstanceData) :
    (castSlice rs).length = 24 * rs.length := by
  induction rs with
  | nil => simp [castSlice]
  | cons r rs ih =>
      simp only [castSlice, List.map_cons, List.flatten_cons, List.length_append,
        words_length, List.length_cons] at *
      omega

theorem write_buffer_nil (buf : List ℚ) (o : ℕ) : write_buffer buf o [] = buf := by
  simp [write_buffer]

theorem drop_append_left {α : Type} (l₁ l₂ : List α) {n k : ℕ}
    (h : l₁.length = n) : (l₁ ++ l₂).drop (n + k) = l₂.drop k := by
  rw [← List.drop_drop, List.drop_left' h]

theorem update_instance_buffers_eq (buf : List ℚ)
    (bg tiles player : List InstanceData) :
    update_instance_buffers buf bg tiles player =
      write_buffer (write_buffer (write_buffer buf 0 (castSlice bg))
          (bg.length * instanceSize) (castSlice tiles))
        (bg.length * instanceSize + tiles.length * instanceSize)
        (castSlice player) := by
  have key : ∀ (b : List ℚ) (o : ℕ) (l : List InstanceData),
      (if l.isEmpty then b else write_buffer b o (castSlice l)) =
        write_buffer b o (castSlice l) := by
    intro b o l
    cases l with
    | nil => simp [castSlice, write_buffer_nil]
    | cons x xs => simp
  unfold update_instance_buffers
  dsimp only
  rw [key, key, key]

/-- C7: for ordered batches (background, tiles, player), each batch is
uploaded at the cumulative byte offset (0, N·sizeof, (N+M)·sizeof), the
occupied region of the shared buffer is exactly the concatenation of the
three batch images of total byte size (N+M+P)·sizeof(InstanceData) with
the rest of the buffer untouched, and reading each batch's byte slice
back yields exactly the bytes of its composed records. -/
theorem C7_instance_buffer_packing (buf : List ℚ)
    (bg tiles player : List InstanceData)
    (hcap : 24 * (bg.length + tiles.length + player.length) ≤ buf.length) :
    packed_spec buf bg tiles player := by
  have hB := castSlice_length bg
  have hT := castSlice_length tiles
  have hP := castSlice_length player
  have ho1 : bg.length * instanceSize / bytesPerWord = 24 * bg.length := by
    simp only [instanceSize, bytesPerWord]
    omega
  have ho2 : (bg.length * instanceSize + tiles.length * instanceSize) /
      bytesPerWord = 24 * bg.length + 24 * tiles.length := by
    simp only [instanceSize, bytesPerWord]
    omega
  have ho3 : tiles.length * instanceSize / bytesPerWord = 24 * tiles.length := by
    simp only [instanceSize, bytesPerWord]
    omega
  have ho4 : player.length * instanceSize / bytesPerWord =
      24 * player.length := by
    simp only [instanceSize, bytesPerWord]
    omega
  have hw1 : write_buffer buf 0 (castSlice bg) =
      castSlice bg ++ buf.drop (24 * bg.length) := by
    simp [write_buffer, hB]
  have hw2 : write_buffer (castSlice bg ++ buf.drop (24 * bg.length))
      (bg.length * instanceSize) (castSlice tiles) =
      castSlice bg ++ (castSlice tiles ++
        buf.drop (24 * bg.length + 24 * tiles.length)) := by
    unfold write_buffer
    rw [ho1, List.take_left' hB, hT, drop_append_left _ _ hB, List.drop_drop,
      List.append_assoc]
  have hw3 : write_buffer (castSlice bg ++ (castSlice tiles ++
        buf.drop (24 * bg.length + 24 * tiles.length)))
      (bg.length * instanceSize + tiles.length * instanceSize)
      (castSlice player) =
      castSlice bg ++ (castSlice tiles ++ (castSlice player ++
        buf.drop (24 * bg.length + (24 * tiles.length + 24 * player.length)))) := by
    unfold write_buffer
    rw [ho2, ← List.append_assoc]
    have hBT : (castSlice bg ++ castSlice tiles).length =
        24 * bg.length + 24 * tiles.length := by
      simp [hB, hT]
    rw [List.take_left' hBT, hP, drop_append_left _ _ hBT, List.drop_drop,
      List.append_assoc]
    simp [List.append_assoc, Nat.add_assoc]
  have heq : update_instance_buffers buf bg tiles player =
      castSlice bg ++ (castSlice tiles ++ (castSlice player ++
        buf.drop (24 * bg.length + (24 * tiles.length + 24 * player.length)))) := by
    rw [update_instance_buffers_eq, hw1, hw2, hw3]
  unfold packed_spec
  dsimp only
  rw [heq]
  have htot : (castSlice bg ++ (castSlice tiles ++ castSlice player)).length =
      24 * (bg.length + tiles.length + player.length) := by
    simp [hB, hT, hP]
    ring
  refine ⟨?_, ?_, ?_, ?_, ?_, ?_⟩
  · simp only [List.length_append, List.length_drop, hB, hT, hP]
    omega
  · rw [show castSlice bg ++ (castSlice tiles ++ (castSlice player ++
        buf.drop (24 * bg.length + (24 * tiles.length + 24 * player.length)))) =
        (castSlice bg ++ (castSlice tiles ++ castSlice player)) ++
        buf.drop (24 * bg.length + (24 * tiles.length + 24 * player.length))
        from by simp [List.append_assoc]]
    rw [List.take_left' htot]
    simp [List.append_assoc]
  · rw [ho1, List.take_left' hB]
  · rw [ho1, ho3, List.drop_left' hB, List.take_left' hT]
  · rw [ho2, ho4, drop_append_left _ _ hB, List.drop_left' hT,
      List.take_left' hP]
  · simp only [bytesPerWord, instanceSize]
    ring

/-- Witness for C7: one record per batch packed into a 72-word buffer. -/
theorem C7_witness :
    24 * (([sampleRecord 1].length + [sampleRecord 2].length +
      [sampleRecord 3].length)) ≤ (List.replicate 72 (0:ℚ)).length ∧
    packed_spec (List.replicate 72 (0:ℚ)) [sampleRecord 1] [sampleRecord 2]
      [sampleRecord 3] :=
  ⟨by simp, C7_instance_buffer_packing (List.replicate 72 (0:ℚ))
    [sampleRecord 1] [sampleRecord 2] [sampleRecord 3] (by simp)⟩

end Platformer
